import Mathlib

/-!
Shallow embedding of `src/main.py`, a FastAPI CRUD service over a MongoDB
collection of task documents, together with proofs about its specification.

Modelling conventions:
* A stored document (a Mongo dict) is `Doc`: every field is optional, mirroring
  `dict.get`.  ObjectIds are modelled as their 96-bit numeric value (`Nat`),
  rendered as a 24-character lowercase hex string, as `bson.ObjectId` does.
* `datetime` instants are abstract (`Nat`); `isoformat` is an injective
  rendering into a string, standing for `datetime.isoformat()`.  A `datetime`
  object is always truthy in Python, so `x.isoformat() if x else None` on an
  optional datetime is exactly `Option.map isoformat`.
* Python exception flow is explicit: a handler body yields `Except PyExc r`,
  and the `except Exception as e: raise HTTPException(500, str(e))` blocks of
  main.py are the `handleExc` wrapper.  `starlette.HTTPException` extends
  `Exception` and stringifies as "status: detail", which `excStr` mirrors.
-/

set_option autoImplicit false

namespace TodoApi

/-- An abstract datetime instant (the model of a Python `datetime` value). -/
abbrev Instant := Nat

/-- Model of `datetime.isoformat()`: an injective rendering of the abstract
instant.  The exact calendar formatting is irrelevant to the claims; what
matters is that it is a fixed function of the stored instant. -/
def isoformat (t : Instant) : String :=
  "1970-01-01T00:00:" ++ toString t ++ "+00:00"

/-- Hex digit character for a value below 16, lowercase (as `str(ObjectId)`). -/
def hexChar (n : Nat) : Char :=
  if n < 10 then Char.ofNat (48 + n) else Char.ofNat (87 + n)

/-- Big-endian list of `k` hex digit characters of `n` (most significant first). -/
def hexDigits : Nat → Nat → List Char
  | 0, _ => []
  | k + 1, n => hexDigits k (n / 16) ++ [hexChar (n % 16)]

/-- Model of `str(ObjectId)`: the 24-character lowercase hex rendering of the
identifier value. -/
def oidStr (n : Nat) : String :=
  (hexDigits 24 n).asString

/-- Numeric value of one hex digit character, `none` when not a hex digit. -/
def hexDigitVal (c : Char) : Option Nat :=
  if c.isDigit then some (c.toNat - 48)
  else if c ≥ 'a' && c ≤ 'f' then some (c.toNat - 87)
  else if c ≥ 'A' && c ≤ 'F' then some (c.toNat - 55)
  else none

/-- Model of the `bson.ObjectId(task_id)` constructor: accepts exactly the
24-character hex strings, yielding the identifier value; anything else raises
`InvalidId` (modelled as `none`). -/
def parseOid (s : String) : Option Nat :=
  if s.length = 24 && s.toList.all (fun c => (hexDigitVal c).isSome) then
    some (s.toList.foldl (fun a c => 16 * a + (hexDigitVal c).getD 0) 0)
  else none

/-- A stored task document (main.py reads it with `doc.get`, so every field is
optional, including `_id`). -/
structure Doc where
  oid : Option Nat
  title : Option String
  description : Option String
  completed : Option Bool
  priority : Option String
  due_date : Option Instant
  created_at : Option Instant
  updated_at : Option Instant
deriving Repr, DecidableEq

/-- The wire-format record produced by `serialize_task` (main.py lines 27-37). -/
structure SerializedTask where
  id : String
  title : Option String
  description : Option String
  completed : Bool
  priority : Option String
  due_date : Option String
  created_at : Option String
  updated_at : Option String
deriving Repr, DecidableEq

/-- Embedding of `serialize_task` (main.py lines 27-37): `str` of the `_id`
(`str(None)` is the string "None" when the key is absent), defaulted
`completed`, and `isoformat` on each date that is present (a `datetime` is
always truthy, an absent or null field is falsy). -/
def serialize_task (doc : Doc) : SerializedTask where
  id := match doc.oid with
    | some i => oidStr i
    | none => "None"
  title := doc.title
  description := doc.description
  completed := doc.completed.getD false
  priority := doc.priority
  due_date := doc.due_date.map isoformat
  created_at := doc.created_at.map isoformat
  updated_at := doc.updated_at.map isoformat

/-- A raised `fastapi.HTTPException`: status code and detail string. -/
structure HTTPError where
  status : Nat
  detail : String
deriving Repr, DecidableEq

/-- A Python exception as it can arise inside a handler body: either an
`HTTPException` (which extends `Exception`) or any other exception carrying
its message. -/
inductive PyExc where
  | http (e : HTTPError)
  | other (msg : String)
deriving Repr, DecidableEq

/-- `str(e)` for an exception: `starlette.HTTPException` stringifies as
"status: detail"; for other exceptions it is their message. -/
def excStr : PyExc → String
  | .http e => toString e.status ++ ": " ++ e.detail
  | .other m => m

/-- The `try ... except Exception as e: raise HTTPException(status_code=500,
detail=str(e))` wrapper around the bodies of `update_task` (lines 74-84) and
`delete_task` (lines 90-96).  Note it catches an `HTTPException` raised inside
the `try` as well, re-raising it with status 500. -/
def handleExc {α : Type} : Except PyExc α → Except HTTPError α
  | .ok a => .ok a
  | .error e => .error ⟨500, excStr e⟩

/-- The PATCH payload (`TaskUpdate`, main.py lines 63-68).  Pydantic fields
are `Optional` with default `None` and `model_dump(exclude_unset=True)` keeps
exactly the fields the client supplied; so each field is modelled as
`Option (Option α)`: the outer layer is set/unset, the inner the (nullable)
supplied value.  `due_date` arrives as an ISO string; we embed the instant it
denotes. -/
structure TaskUpdate where
  title : Option (Option String)
  description : Option (Option String)
  completed : Option (Option Bool)
  priority : Option (Option String)
  due_date : Option (Option Instant)
deriving Repr, DecidableEq

/-- A payload with every field unset. -/
def TaskUpdate.empty : TaskUpdate := ⟨none, none, none, none, none⟩

/-- Application of the `$set` document of main.py line 78 to one document:
each field that was supplied (`exclude_unset`) is overwritten with the
supplied value, and `updated_at` is set to the current time.  Lines 76-77
(`if "due_date" in update_doc and update_doc["due_date"] is None: ... = None`)
are a no-op and need no counterpart. -/
def setFields (d : Doc) (u : TaskUpdate) (now : Instant) : Doc :=
  { d with
    title := u.title.getD d.title
    description := u.description.getD d.description
    completed := u.completed.getD d.completed
    priority := u.priority.getD d.priority
    due_date := u.due_date.getD d.due_date
    updated_at := some now }

/-- Mongo `update_one({_id: oid}, {$set: ...})`: updates the first (here: the
unique) document whose `_id` equals `oid`, returning `matched_count` and the
new collection state. -/
def updateOne : List Doc → Nat → TaskUpdate → Instant → Nat × List Doc
  | [], _, _, _ => (0, [])
  | d :: ds, oid, u, now =>
    if d.oid = some oid then (1, setFields d u now :: ds)
    else
      let r := updateOne ds oid u now
      (r.1, d :: r.2)

/-- Mongo `find_one({_id: oid})`. -/
def findOne (store : List Doc) (oid : Nat) : Option Doc :=
  store.find? (fun d => d.oid == some oid)

/-- Mongo `delete_one({_id: oid})`: removes the first (unique) matching
document, returning `deleted_count` and the new collection state. -/
def deleteOne : List Doc → Nat → Nat × List Doc
  | [], _ => (0, [])
  | d :: ds, oid =>
    if d.oid = some oid then (1, ds)
    else
      let r := deleteOne ds oid
      (r.1, d :: r.2)

/-- The `try` body of `update_task` (main.py lines 74-82), returning the
outcome together with the collection state after whatever store calls ran:
parse the id (raising `InvalidId` on a malformed one), `update_one` with the
supplied fields plus `updated_at := now`, raise a 404 `HTTPException` when
nothing matched, else read the document back and serialize it. -/
def update_body (store : List Doc) (task_id : String) (payload : TaskUpdate)
    (now : Instant) : Except PyExc SerializedTask × List Doc :=
  match parseOid task_id with
  | none => (.error (.other ("InvalidId: " ++ task_id)), store)
  | some oid =>
    let r := updateOne store oid payload now
    if r.1 = 0 then (.error (.http ⟨404, "Task not found"⟩), r.2)
    else
      match findOne r.2 oid with
      | some doc => (.ok (serialize_task doc), r.2)
      | none => (.error (.other "AttributeError: NoneType has no attribute get"), r.2)

/-- Embedding of the PATCH handler `update_task` (main.py lines 70-84): a 500
when the database handle is `None`, otherwise the `try` body under the
`except Exception` wrapper `handleExc`. -/
def update_task (dbAvail : Bool) (store : List Doc) (task_id : String)
    (payload : TaskUpdate) (now : Instant) : Except HTTPError SerializedTask × List Doc :=
  if dbAvail then
    let r := update_body store task_id payload now
    (handleExc r.1, r.2)
  else (.error ⟨500, "Database not available"⟩, store)

/-- The DELETE response body `{"success": True}`. -/
structure DeleteResp where
  success : Bool
deriving Repr, DecidableEq

/-- The `try` body of `delete_task` (main.py lines 90-94): parse the id,
`delete_one`, raise a 404 `HTTPException` when nothing was deleted. -/
def delete_body (store : List Doc) (task_id : String) :
    Except PyExc DeleteResp × List Doc :=
  match parseOid task_id with
  | none => (.error (.other ("InvalidId: " ++ task_id)), store)
  | some oid =>
    let r := deleteOne store oid
    if r.1 = 0 then (.error (.http ⟨404, "Task not found"⟩), r.2)
    else (.ok ⟨true⟩, r.2)

/-- Embedding of the DELETE handler `delete_task` (main.py lines 86-96). -/
def delete_task (dbAvail : Bool) (store : List Doc) (task_id : String) :
    Except HTTPError DeleteResp × List Doc :=
  if dbAvail then
    let r := delete_body store task_id
    (handleExc r.1, r.2)
  else (.error ⟨500, "Database not available"⟩, store)

/-- The filter dict built by `list_tasks` (main.py lines 52-57): an optional
`title: {$regex: q, $options: "i"}` entry, added only when `q` is truthy
(non-`None` and non-empty), and an optional `completed` equality entry. -/
structure Filter where
  titleRegex : Option String
  completedEq : Option Bool
deriving Repr, DecidableEq

/-- Embedding of the filter construction of main.py lines 52-57.  `if q:` is
Python truthiness on `Optional[str]`: `None` and the empty string add no
title entry. -/
def buildFilter (q : Option String) (completed : Option Bool) : Filter where
  titleRegex := match q with
    | some s => if s = "" then none else some s
    | none => none
  completedEq := completed

/-- One token of a regular-expression pattern in the fragment this development
models: an ordinary character matches itself, an unescaped dot matches any
character. -/
inductive RTok where
  | lit (c : Char)
  | dot
deriving Repr, DecidableEq

/-- Reading of a pattern string in the modelled PCRE fragment (patterns made
of ordinary characters and the dot metacharacter; no quantifiers, anchors,
classes or groups appear in any statement below). -/
def readPattern (s : String) : List RTok :=
  s.toList.map fun c => if c = '.' then RTok.dot else RTok.lit c

/-- Case-insensitive match of one token against one character (the `$options:
"i"` flag of main.py line 55). -/
def tokMatchCI : RTok → Char → Bool
  | .dot, _ => true
  | .lit a, c => a.toLower == c.toLower

/-- The pattern matches a prefix of the character list. -/
def matchHere : List RTok → List Char → Bool
  | [], _ => true
  | _ :: _, [] => false
  | t :: ts, c :: cs => tokMatchCI t c && matchHere ts cs

/-- Unanchored, case-insensitive regular-expression search of `pat` in `t`:
the behaviour of the store on `{title: {$regex: pat, $options: "i"}}` for
patterns in the modelled fragment. -/
def regexSearchCI (pat : String) (t : String) : Bool :=
  t.toList.tails.any (matchHere (readPattern pat))

/-- The title entry of the filter, as the store evaluates it: a document
matches when its `title` field is present and the regex search succeeds. -/
def titlePred (pat : String) (d : Doc) : Bool :=
  match d.title with
  | some t => regexSearchCI pat t
  | none => false

/-- The `completed` entry of the filter: Mongo equality on the field (an
absent or null field does not equal a boolean). -/
def completedPred (b : Bool) (d : Doc) : Bool :=
  d.completed == some b

/-- A document matches the filter dict when it satisfies every entry present
(Mongo top-level keys combine as a conjunction). -/
def matchesFilter (f : Filter) (d : Doc) : Bool :=
  (match f.titleRegex with
    | some pat => titlePred pat d
    | none => true)
  && (match f.completedEq with
    | some b => completedPred b d
    | none => true)

/-- Modelled from the spec: `get_documents` lives in `database.py`, which is
not under src/.  Per the spec it is a thin wrapper issuing a find call and
"returning raw documents": all documents of the collection matching the
filter, with the store's filter semantics (`matchesFilter`). -/
def get_documents (store : List Doc) (f : Filter) : List Doc :=
  store.filter (matchesFilter f)

/-- Embedding of the GET handler `list_tasks` (main.py lines 49-61): build the
filter dict, fetch the matching documents, serialize each.  The body raises
only on store failure, which the model leaves out: no claim concerns it. -/
def list_tasks (q : Option String) (completed : Option Bool)
    (store : List Doc) : List SerializedTask :=
  (get_documents store (buildFilter q completed)).map serialize_task

/-- The predicate the spec's words describe for the `q` filter: `q` occurs in
the title as a literal substring, ignoring letter case.  Declared for
comparison with the store predicate `titlePred` that the code builds. -/
def substringCI (q t : String) : Bool :=
  (t.toList.map Char.toLower).tails.any
    (List.isPrefixOf (q.toList.map Char.toLower))

/-- The response dict of the `/test` endpoint (main.py lines 100-107).
`database_url` and `database_name` start as `None`, hence `Option String`. -/
structure DiagResponse where
  backend : String
  database : String
  database_url : Option String
  database_name : Option String
  connection_status : String
  collections : List String
deriving Repr, DecidableEq

/-- The initial response dict (main.py lines 100-107). -/
def initResponse : DiagResponse where
  backend := "✅ Running"
  database := "❌ Not Available"
  database_url := none
  database_name := none
  connection_status := "Not Connected"
  collections := []

/-- The observable state of the module-level database handle for the `/test`
endpoint: either `db` is `None`, or it is a handle on which the `name`
attribute access and `list_collection_names()` each either return or raise. -/
inductive DbState where
  /-- `db is None`. -/
  | noDb
  /-- A handle.  `nameAttr`: `.ok (some s)` when `db.name` is `s`, `.ok none`
  when `hasattr(db, "name")` is false, `.error e` when the attribute access
  raises (caught only by the outer `except`).  `collNames`: the outcome of
  `db.list_collection_names()`. -/
  | conn (nameAttr : Except String (Option String))
      (collNames : Except String (List String))
deriving Repr

/-- `str(e)[:50]` (main.py lines 119 and 123). -/
def strTrunc50 (s : String) : String :=
  (s.toList.take 50).asString

/-- The outer `try` block of `test_database` (main.py lines 108-121), acting
on the response dict.  An uncaught exception carries the partially mutated
dict with it (Python mutates `response` in place), so the error case returns
the message together with the dict as mutated so far.  The inner
`try`/`except` around `list_collection_names` (lines 114-119) is the match on
`collNames`. -/
def diagTryBlock (s : DbState) (r : DiagResponse) :
    Except (String × DiagResponse) DiagResponse :=
  match s with
  | .noDb => .ok { r with database := "⚠️  Available but not initialized" }
  | .conn nameAttr collNames =>
    let r := { r with database := "✅ Available", database_url := some "✅ Configured" }
    match nameAttr with
    | .error e => .error (e, r)
    | .ok nm =>
      let r := { r with
        database_name := some (nm.getD "✅ Connected")
        connection_status := "Connected" }
      match collNames with
      | .ok cs => .ok { r with collections := cs.take 10, database := "✅ Connected & Working" }
      | .error e => .ok { r with database := "⚠️  Connected but Error: " ++ strTrunc50 e }

/-- `"✅ Set" if os.getenv(...) else "❌ Not Set"` (main.py lines 125-126):
Python truthiness on the environment value (unset, i.e. `None`, and the empty
string are both falsy). -/
def envFlag (v : Option String) : String :=
  match v with
  | some s => if s = "" then "❌ Not Set" else "✅ Set"
  | none => "❌ Not Set"

/-- The response dict after the outer `try`/`except` (main.py lines 108-123):
the `except` branch sets only the `database` status string on the partially
mutated dict. -/
def diagAfterTry (s : DbState) : DiagResponse :=
  match diagTryBlock s initResponse with
  | .ok r => r
  | .error er => { er.2 with database := "❌ Error: " ++ strTrunc50 er.1 }

/-- Embedding of the `/test` handler `test_database` (main.py lines 98-127):
the initial dict, the guarded block with its `except` setting the `database`
status string, and the unconditional final overwrite of `database_url` and
`database_name` with presence flags (lines 125-126).  The result is
`Except String`, an error meaning the request fails with an uncaught
exception. -/
def test_database (s : DbState) (dbUrlEnv dbNameEnv : Option String) :
    Except String DiagResponse :=
  .ok { diagAfterTry s with
    database_url := some (envFlag dbUrlEnv)
    database_name := some (envFlag dbNameEnv) }

/-! Concrete fixtures used by the closed theorems and the witnesses. -/

/-- A stored, not yet completed task with identifier value 5. -/
def d5 : Doc :=
  ⟨some 5, some "buy milk", none, some false, none, none, none, none⟩

/-- The hex id string of `d5`, as a client would send it in the path. -/
def tid5 : String := "000000000000000000000005"

/-- A stored task titled "abc" (no `completed` field). -/
def dAbc : Doc :=
  ⟨some 1, some "abc", none, none, none, none, none, none⟩

/-- A stored, completed task titled "banana". -/
def dTrue : Doc :=
  ⟨some 3, some "banana", none, some true, none, none, none, none⟩

/-- A stored task with every field present. -/
def dFull : Doc :=
  ⟨some 2, some "t", some "d", some true, some "high", some 3, some 4, some 5⟩

/-- A stored task whose optional fields are all absent. -/
def dEmpty : Doc :=
  ⟨some 9, some "t", none, none, none, none, none, none⟩

/-- A PATCH payload supplying only `title` and `completed`. -/
def u0 : TaskUpdate :=
  ⟨some (some "new title"), none, some (some true), none, none⟩

end TodoApi

namespace TodoApi

/-- Claim C1: the spec says a PATCH on an id matching no document fails with
Not-Found (404).  The code does raise `HTTPException(404)` (line 80), but the
raise happens inside the `try` whose `except Exception` (lines 83-84) catches
the `HTTPException` too and re-raises it as a 500 whose detail is the
stringified 404.  Evaluated on a well-formed id over the empty store, the
handler answers 500, not 404. -/
theorem update_task_missing_id_is_500_not_404 :
    (update_task true [] "000000000000000000000000" TaskUpdate.empty 0).1
      = Except.error ⟨500, "404: Task not found"⟩ := rfl

/-- Claim C2: the spec says deleting twice returns success then Not-Found
(404).  The first DELETE succeeds and removes the document, but the second
answers 500: the 404 raised at line 93 is caught by the `except Exception`
(lines 95-96) and re-raised as a 500. -/
theorem delete_task_twice_is_success_then_500 :
    (delete_task true [d5] tid5).1 = Except.ok ⟨true⟩
    ∧ (delete_task true [d5] tid5).2 = []
    ∧ (delete_task true (delete_task true [d5] tid5).2 tid5).1
        = Except.error ⟨500, "404: Task not found"⟩ :=
  ⟨rfl, rfl, rfl⟩

/-- Claim C5: the spec (and the code's own comment, line 54) call the title
predicate a case-insensitive substring match, but the code passes `q` verbatim
as a `$regex` pattern, so regex metacharacters are interpreted: the query
"a.c" returns the task titled "abc" (the dot matches any character) although
"a.c" is not a substring of "abc" in any letter case. -/
theorem list_tasks_q_is_regex_not_substring :
    (list_tasks (some "a.c") none [dAbc]).length = 1
    ∧ substringCI "a.c" "abc" = false :=
  ⟨rfl, by decide⟩

/-- Claim C10: an empty `q` is falsy in Python (`if q:` at line 53), so it
adds no title entry to the filter and the list operation behaves exactly as
with `q` absent, whatever the `completed` argument and the store. -/
theorem list_tasks_empty_q_eq_absent_q (completed : Option Bool) (store : List Doc) :
    list_tasks (some "") completed store = list_tasks none completed store := rfl

/-- Claim C3: applying the `$set` document of a successful PATCH (main.py
lines 75-78) to the matched document sets `updated_at` to the current time
and overwrites exactly the fields the payload supplied; every unsupplied
field — and the identifier and `created_at`, which the payload cannot carry —
keeps its previous value. -/
theorem update_changes_only_supplied_fields (d : Doc) (u : TaskUpdate) (now : Instant) :
    (setFields d u now).updated_at = some now
    ∧ (setFields d u now).oid = d.oid
    ∧ (setFields d u now).created_at = d.created_at
    ∧ (u.title = none → (setFields d u now).title = d.title)
    ∧ (u.description = none → (setFields d u now).description = d.description)
    ∧ (u.completed = none → (setFields d u now).completed = d.completed)
    ∧ (u.priority = none → (setFields d u now).priority = d.priority)
    ∧ (u.due_date = none → (setFields d u now).due_date = d.due_date)
    ∧ (∀ v, u.title = some v → (setFields d u now).title = v)
    ∧ (∀ v, u.description = some v → (setFields d u now).description = v)
    ∧ (∀ v, u.completed = some v → (setFields d u now).completed = v)
    ∧ (∀ v, u.priority = some v → (setFields d u now).priority = v)
    ∧ (∀ v, u.due_date = some v → (setFields d u now).due_date = v) := by
  refine ⟨rfl, rfl, rfl, ?_, ?_, ?_, ?_, ?_, ?_, ?_, ?_, ?_, ?_⟩ <;>
    first
      | (intro h; simp [setFields, h])
      | (intro v h; simp [setFields, h])

/-- Witness for C3: on a concrete task and a payload supplying only `title`
and `completed`, the update stamps `updated_at` and leaves the unsupplied
`description` unchanged while taking the supplied `title`. -/
theorem update_changes_only_supplied_fields_witness :
    (setFields d5 u0 7).updated_at = some 7
    ∧ (setFields d5 u0 7).description = d5.description
    ∧ (setFields d5 u0 7).title = some "new title" :=
  ⟨(update_changes_only_supplied_fields d5 u0 7).1,
   (update_changes_only_supplied_fields d5 u0 7).2.2.2.2.1 rfl,
   (update_changes_only_supplied_fields d5 u0 7).2.2.2.2.2.2.2.2.1 (some "new title") rfl⟩

/-- Claim C4: when a non-empty query and a completed flag are both supplied,
the listing is exactly the store filtered by the conjunction of the title
predicate and the completed-equality predicate, serialized; in particular
with `completed=true` every returned record has `completed = true`. -/
theorem list_tasks_and_semantics (s : String) (hs : ¬ s = "") (b : Bool) (store : List Doc) :
    list_tasks (some s) (some b) store
      = (store.filter (fun d => titlePred s d && completedPred b d)).map serialize_task
    ∧ (∀ r ∈ list_tasks (some s) (some true) store, r.completed = true) := by
  constructor
  · simp only [list_tasks, get_documents, buildFilter, if_neg hs]
    rfl
  · intro r hr
    simp only [list_tasks, get_documents, List.mem_map, List.mem_filter] at hr
    obtain ⟨d, ⟨hdmem, hdf⟩, rfl⟩ := hr
    have hc : d.completed = some true := by
      simp [matchesFilter, buildFilter, if_neg hs, completedPred] at hdf
      exact hdf.2
    simp [serialize_task, hc]

/-- Witness for C4: concrete query "an", flag true, over a two-document store
in which only the completed "banana" task satisfies both predicates. -/
theorem list_tasks_and_semantics_witness :
    list_tasks (some "an") (some true) [d5, dTrue]
      = ([d5, dTrue].filter (fun d => titlePred "an" d && completedPred true d)).map serialize_task
    ∧ (∀ r ∈ list_tasks (some "an") (some true) [d5, dTrue], r.completed = true) :=
  list_tasks_and_semantics "an" (by decide) true [d5, dTrue]

/-- Claim C6: the `/test` handler returns a normal response for every state of
the database handle — absent, available with collections, raising on the
`name` attribute access, or raising from `list_collection_names` — and every
environment: every raise inside the handler lands in one of its two `except`
blocks, so the result is always `ok`. -/
theorem test_database_never_fails (s : DbState) (u n : Option String) :
    ∃ r, test_database s u n = Except.ok r :=
  ⟨_, rfl⟩

/-- Claim C7: the serializer renders the document identifier with `str` and
each present date field with `isoformat`. -/
theorem serialize_task_id_and_dates (d : Doc) (i : Nat) (h : d.oid = some i) :
    (serialize_task d).id = oidStr i
    ∧ (∀ t, d.due_date = some t → (serialize_task d).due_date = some (isoformat t))
    ∧ (∀ t, d.created_at = some t → (serialize_task d).created_at = some (isoformat t))
    ∧ (∀ t, d.updated_at = some t → (serialize_task d).updated_at = some (isoformat t)) := by
  refine ⟨by simp [serialize_task, h], ?_, ?_, ?_⟩ <;>
    (intro t ht; simp [serialize_task, ht])

/-- Witness for C7: the fully populated document serializes to the hex id
string and ISO date strings. -/
theorem serialize_task_id_and_dates_witness :
    (serialize_task dFull).id = oidStr 2
    ∧ (serialize_task dFull).due_date = some (isoformat 3) :=
  ⟨(serialize_task_id_and_dates dFull 2 rfl).1,
   (serialize_task_id_and_dates dFull 2 rfl).2.1 3 rfl⟩

/-- The presence flag is one of the two status strings, never the value. -/
theorem envFlag_cases (v : Option String) :
    envFlag v = "✅ Set" ∨ envFlag v = "❌ Not Set" := by
  cases v with
  | none => exact Or.inr rfl
  | some s =>
    by_cases hs : s = "" <;> simp [envFlag, hs]

/-- After the `try`/`except` the collections list holds at most 10 names:
it is either still empty or `collections[:10]`. -/
theorem diagAfterTry_collections_le (s : DbState) :
    (diagAfterTry s).collections.length ≤ 10 := by
  cases s with
  | noDb => simp [diagAfterTry, diagTryBlock, initResponse]
  | conn nameAttr collNames =>
    cases nameAttr with
    | error e => simp [diagAfterTry, diagTryBlock, initResponse]
    | ok nm =>
      cases collNames with
      | ok cs =>
        simp [diagAfterTry, diagTryBlock, initResponse, List.length_take]
      | error e => simp [diagAfterTry, diagTryBlock, initResponse]

/-- Claim C8: whatever the handle state and the environment values, the final
response reports `DATABASE_URL` and `DATABASE_NAME` only as one of the two
presence flags (lines 125-126 overwrite unconditionally, erasing the interim
`db.name` value of line 112), and carries at most 10 collection names. -/
theorem test_database_presence_only_and_coll_bound (s : DbState) (u n : Option String)
    (r : DiagResponse) (h : test_database s u n = Except.ok r) :
    (r.database_url = some "✅ Set" ∨ r.database_url = some "❌ Not Set")
    ∧ (r.database_name = some "✅ Set" ∨ r.database_name = some "❌ Not Set")
    ∧ r.collections.length ≤ 10 := by
  simp only [test_database, Except.ok.injEq] at h
  subst h
  refine ⟨?_, ?_, ?_⟩
  · rcases envFlag_cases u with h1 | h1 <;> simp [h1]
  · rcases envFlag_cases n with h1 | h1 <;> simp [h1]
  · simpa using diagAfterTry_collections_le s

/-- A concrete final response of the `/test` handler: reachable store with two
collections, `DATABASE_URL` set, `DATABASE_NAME` unset. -/
def diagW : DiagResponse :=
  { diagAfterTry (DbState.conn (Except.ok (some "pastel")) (Except.ok ["task", "user"])) with
    database_url := some (envFlag (some "mongodb://h:27017"))
    database_name := some (envFlag none) }

/-- Witness for C8 on the concrete state behind `diagW`. -/
theorem test_database_presence_only_witness :
    (diagW.database_url = some "✅ Set" ∨ diagW.database_url = some "❌ Not Set")
    ∧ (diagW.database_name = some "✅ Set" ∨ diagW.database_name = some "❌ Not Set")
    ∧ diagW.collections.length ≤ 10 :=
  test_database_presence_only_and_coll_bound
    (DbState.conn (Except.ok (some "pastel")) (Except.ok ["task", "user"]))
    (some "mongodb://h:27017") none diagW rfl

/-- Claim C9: the serializer substitutes `false` for an absent `completed`
field and `null` for an absent (or null) `due_date`, `created_at` or
`updated_at`, instead of failing. -/
theorem serialize_task_defaults (d : Doc) :
    (d.completed = none → (serialize_task d).completed = false)
    ∧ (d.due_date = none → (serialize_task d).due_date = none)
    ∧ (d.created_at = none → (serialize_task d).created_at = none)
    ∧ (d.updated_at = none → (serialize_task d).updated_at = none) := by
  refine ⟨?_, ?_, ?_, ?_⟩ <;> (intro h; simp [serialize_task, h])

/-- Witness for C9 on the document with every optional field absent. -/
theorem serialize_task_defaults_witness :
    (serialize_task dEmpty).completed = false
    ∧ (serialize_task dEmpty).due_date = none :=
  ⟨(serialize_task_defaults dEmpty).1 rfl,
   (serialize_task_defaults dEmpty).2.1 rfl⟩

end TodoApi
